import Mathlib

/-!
Verification of `vdodumpconfig` (src/utils/vdo/user/vdodumpconfig.c), a
one-shot diagnostic that opens a VDO volume backing store read-only, copies
its persisted configuration out of the volume handle, closes the handle and
prints the configuration to standard output.

The program is embedded as a pure function from a world (mapping each
backing-store path to the volume configuration the external loader would
recover from it, or to a load failure) and a command line to the trace of
observable events the process performs (loader calls, writes to the
standard streams, process exit).  Each `printf` in the source is one
stdout event; `errx` is one stderr event followed by exit.
-/

/-- The configuration record printed by the tool.  Modelled from the spec:
the struct `VDOConfig` comes from `vdoInternal.h`, which is not among the
provided sources; the spec fixes its five unsigned 64-bit fields
`logicalBlocks`, `physicalBlocks`, `slabSize`, `recoveryJournalSize` and
`slabJournalBlocks`. -/
structure VDOConfig where
  logicalBlocks : Nat
  physicalBlocks : Nat
  slabSize : Nat
  recoveryJournalSize : Nat
  slabJournalBlocks : Nat
deriving DecidableEq

/-- The in-memory volume object returned by the loader; the tool only reads
its `config` field (`vdo->config` in the source). -/
structure VDO where
  config : VDOConfig
deriving DecidableEq

/-- A world maps each backing-store path to `some` configuration when the
external loader can load a volume from that path, `none` when loading
fails. -/
def World : Type := String → Option VDOConfig

/-- Modelled from the spec: `VDO_BLOCK_SIZE` comes from `constants.h`,
which is not among the provided sources; the spec describes it as the
storage format's compile-time block size and its worked example fixes it
at 4096.  It is a C `int`, hence `Int` here. -/
def VDO_BLOCK_SIZE : Int := 4096

/-- One command-line token after `argv[0]`, classified the way
`getopt_long` with option table { "help" } and option string "h"
classifies it: a recognized help flag (`--help` or `-h`), an unrecognized
option token, or a non-option (positional) argument. -/
inductive Arg where
  | helpFlag : Arg
  | badFlag : String → Arg
  | positional : String → Arg
deriving DecidableEq

/-- Observable process events, in program order. -/
inductive Event where
  | openCall : String → Bool → Event
  | closeCall : Event
  | outWrite : String → Event
  | errWrite : String → Event
  | exited : Nat → Event
deriving DecidableEq

/-- The text printed by `errx(code, fmt, ...)`: program name, colon, the
formatted message, and a trailing newline. -/
def errxMsg (prog msg : String) : String :=
  prog ++ ": " ++ msg ++ "\n"

/-- The `usageString` constant of the source. -/
def usageString : String := "[--help] vdoBacking"

/-- The `helpString` constant of the source. -/
def helpString : String :=
  "vdodumpconfig - dump the configuration of a VDO volume from its backing\n                store.\n\nSYNOPSIS\n  vdodumpconfig <vdoBacking>\n\nDESCRIPTION\n  vdodumpconfig dumps the configuration of a VDO volume, whether or not\n  the VDO is running.\n\n"

/-- The stderr text produced by the `usage` function of the source, which
calls `errx(1, "Usage: %s %s\n", progname, usageString)`. -/
def usageMsg (prog : String) : String :=
  errxMsg prog ("Usage: " ++ prog ++ " " ++ usageString ++ "\n")

/-- Result of the `getopt_long` loop in `processArgs`: `some true` when the
first option processed is the help flag (case 'h': print help, exit 0),
`some false` when it is unrecognized (default: usage, exit 1), `none` when
the loop finishes without exiting, i.e. no option token is present.  GNU
`getopt_long` in its default permuting mode processes option tokens in
their order of appearance, skipping over non-option arguments. -/
def scanOptions : List Arg → Option Bool
  | [] => none
  | Arg.helpFlag :: _ => some true
  | Arg.badFlag _ :: _ => some false
  | Arg.positional _ :: rest => scanOptions rest

/-- The non-option arguments, in order; after GNU permutation these are
`argv[optind] .. argv[argc-1]`. -/
def positionalsOf : List Arg → List String
  | [] => []
  | Arg.positional p :: rest => p :: positionalsOf rest
  | _ :: rest => positionalsOf rest

/-- Outcome of `processArgs`: exit printing help, exit printing usage, or
return the single backing-store path. -/
inductive ArgsResult where
  | helpExit : ArgsResult
  | usageExit : ArgsResult
  | ok : String → ArgsResult
deriving DecidableEq

/-- Embedding of `processArgs`: run the option loop; on 'h' print the help
text and exit 0, on any unrecognized option print usage and exit 1; then
require exactly one remaining positional argument (`optind == argc - 1`),
otherwise print usage and exit 1. -/
def processArgs (args : List Arg) : ArgsResult :=
  match scanOptions args with
  | some true => ArgsResult.helpExit
  | some false => ArgsResult.usageExit
  | none =>
    match positionalsOf args with
    | [p] => ArgsResult.ok p
    | _ => ArgsResult.usageExit

/-- Modelled from the spec: `makeVDOFromFile(path, readOnly, &vdo)` lives
in the external volume-loading collaborator (`vdoVolumeUtils.h`), not in
the provided sources.  Per the spec it opens the backing store without
mutating it and either yields a validated volume handle or a load
failure; it is therefore a pure function of the world which returns the
world unchanged. -/
def makeVDOFromFile (w : World) (path : String) (_readOnly : Bool) :
    Option VDO × World :=
  ((w path).map (fun c => { config := c }), w)

/-- Embedding of `readVDOConfig`: call `makeVDOFromFile(vdoBacking, true,
&vdo)`; on failure `errx(1, ...)` naming the path; on success copy
`vdo->config` out, free the volume (`freeVDOFromFile`), and return the
copied configuration.  Yields the event trace, the configuration when one
was returned, and the resulting world. -/
def readVDOConfig (w : World) (prog vdoBacking : String) :
    List Event × Option VDOConfig × World :=
  match makeVDOFromFile w vdoBacking true with
  | (none, w1) =>
    ([Event.openCall vdoBacking true,
      Event.errWrite
        (errxMsg prog
          ("Could not load VDO from \x27" ++ vdoBacking ++ "\x27")),
      Event.exited 1], none, w1)
  | (some vdo, w1) =>
    ([Event.openCall vdoBacking true, Event.closeCall], some vdo.config, w1)

/-- Decimal rendering of a C unsigned integer (`%u` / `PRIu64`). -/
def unsignedDec (n : Nat) : String := toString n

/-- Decimal rendering of a C signed int (`%d`). -/
def signedDec (i : Int) : String := toString i

/-- The seven lines `main` prints on success, one per `printf`, in source
order: the header, then blockSize (printed with `%d`), then the five
configuration fields (printed with `PRIu64`). -/
def renderLines (config : VDOConfig) : List String :=
  ["VDOConfig:\n",
   "  blockSize: " ++ signedDec VDO_BLOCK_SIZE ++ "\n",
   "  logicalBlocks: " ++ unsignedDec config.logicalBlocks ++ "\n",
   "  physicalBlocks: " ++ unsignedDec config.physicalBlocks ++ "\n",
   "  slabSize: " ++ unsignedDec config.slabSize ++ "\n",
   "  recoveryJournalSize: " ++ unsignedDec config.recoveryJournalSize ++ "\n",
   "  slabJournalBlocks: " ++ unsignedDec config.slabJournalBlocks ++ "\n"]

/-- Embedding of `main`: process the arguments (help exits 0 after
printing the help text to stdout, usage errors exit 1 after printing the
usage message to stderr), open the logger (external, no observable event
modelled), read the configuration, print the report and exit 0.  Returns
the event trace and the final world. -/
def vdoMain (w : World) (prog : String) (args : List Arg) :
    List Event × World :=
  match processArgs args with
  | ArgsResult.helpExit => ([Event.outWrite helpString, Event.exited 0], w)
  | ArgsResult.usageExit => ([Event.errWrite (usageMsg prog), Event.exited 1], w)
  | ArgsResult.ok path =>
    match readVDOConfig w prog path with
    | (tr, none, w1) => (tr, w1)
    | (tr, some config, w1) =>
      (tr ++ List.map Event.outWrite (renderLines config) ++ [Event.exited 0], w1)

/-- The event trace of one run. -/
def mainTrace (w : World) (prog : String) (args : List Arg) : List Event :=
  (vdoMain w prog args).1

/-- The world after one run. -/
def mainWorld (w : World) (prog : String) (args : List Arg) : World :=
  (vdoMain w prog args).2

/-- The strings written to standard output, in order. -/
def stdoutOf : List Event → List String
  | [] => []
  | Event.outWrite s :: rest => s :: stdoutOf rest
  | _ :: rest => stdoutOf rest

/-- The strings written to standard error, in order. -/
def stderrOf : List Event → List String
  | [] => []
  | Event.errWrite s :: rest => s :: stderrOf rest
  | _ :: rest => stderrOf rest

/-- The process exit code: the first `exited` event of the trace. -/
def exitCodeOf : List Event → Option Nat
  | [] => none
  | Event.exited c :: _ => some c
  | _ :: rest => exitCodeOf rest

/-- Whether an event is the handle-release call (`freeVDOFromFile`). -/
def isClose : Event → Bool
  | Event.closeCall => true
  | _ => false

/-- How many times the volume handle is released in a trace. -/
def countClose (tr : List Event) : Nat := List.countP isClose tr

/-- Whether a trace contains any volume-open call. -/
def accessesVolume : List Event → Bool
  | [] => false
  | Event.openCall _ _ :: _ => true
  | _ :: rest => accessesVolume rest

/-- Whether every volume-open call in the trace has the read-only flag
set. -/
def opensReadOnly : List Event → Bool
  | [] => true
  | Event.openCall _ ro :: rest => ro && opensReadOnly rest
  | _ :: rest => opensReadOnly rest

/-- A world in which no path loads as a volume. -/
def worldNone : World := fun _ => none

/-- The configuration of the worked example in the spec. -/
def exampleConfig : VDOConfig :=
  { logicalBlocks := 1024, physicalBlocks := 2048, slabSize := 512,
    recoveryJournalSize := 64, slabJournalBlocks := 16 }

/-- A world holding exactly one valid volume, at path "vol". -/
def worldOne : World :=
  fun p => if p = "vol" then some exampleConfig else none

@[simp] theorem stdoutOf_append (l₁ l₂ : List Event) :
    stdoutOf (l₁ ++ l₂) = stdoutOf l₁ ++ stdoutOf l₂ := by
  induction l₁ with
  | nil => rfl
  | cons e rest ih => cases e <;> simp [stdoutOf, ih]

@[simp] theorem stderrOf_append (l₁ l₂ : List Event) :
    stderrOf (l₁ ++ l₂) = stderrOf l₁ ++ stderrOf l₂ := by
  induction l₁ with
  | nil => rfl
  | cons e rest ih => cases e <;> simp [stderrOf, ih]

@[simp] theorem stdoutOf_map_outWrite (ls : List String) :
    stdoutOf (List.map Event.outWrite ls) = ls := by
  induction ls with
  | nil => rfl
  | cons s rest ih => simp [stdoutOf, ih]

@[simp] theorem stderrOf_map_outWrite (ls : List String) :
    stderrOf (List.map Event.outWrite ls) = [] := by
  induction ls with
  | nil => rfl
  | cons s rest ih => simp [stderrOf, ih]

@[simp] theorem exitCodeOf_map_outWrite (ls : List String) (tr : List Event) :
    exitCodeOf (List.map Event.outWrite ls ++ tr) = exitCodeOf tr := by
  induction ls with
  | nil => rfl
  | cons s rest ih => simp [exitCodeOf, ih]

@[simp] theorem countClose_map_outWrite (ls : List String) :
    countClose (List.map Event.outWrite ls) = 0 := by
  induction ls with
  | nil => rfl
  | cons s rest ih =>
    simp only [List.map_cons, countClose, List.countP_cons, isClose]
    simpa [countClose] using ih

/-- The run never changes the world: the loader is the only collaborator
touching the backing store and it is read-only. -/
theorem main_world_const (w : World) (prog : String) (args : List Arg) :
    mainWorld w prog args = w := by
  unfold mainWorld vdoMain
  cases hp : processArgs args with
  | helpExit => rfl
  | usageExit => rfl
  | ok path =>
    cases hw : w path <;>
      simp [readVDOConfig, makeVDOFromFile, hw]

/-- On a successful load the trace is: open, close, the seven report
lines, exit 0. -/
theorem mainTrace_ok_some (w : World) (prog path : String) (args : List Arg)
    (c : VDOConfig) (hargs : processArgs args = ArgsResult.ok path)
    (h : w path = some c) :
    mainTrace w prog args =
      [Event.openCall path true, Event.closeCall] ++
        List.map Event.outWrite (renderLines c) ++ [Event.exited 0] := by
  simp [mainTrace, vdoMain, hargs, readVDOConfig, makeVDOFromFile, h]

/-- On a failed load the trace is: open, the diagnostic, exit 1. -/
theorem mainTrace_ok_none (w : World) (prog path : String) (args : List Arg)
    (hargs : processArgs args = ArgsResult.ok path) (h : w path = none) :
    mainTrace w prog args =
      [Event.openCall path true,
       Event.errWrite
         (errxMsg prog ("Could not load VDO from \x27" ++ path ++ "\x27")),
       Event.exited 1] := by
  simp [mainTrace, vdoMain, hargs, readVDOConfig, makeVDOFromFile, h]

/-- C1: for an invocation with exactly one positional argument naming a
valid volume, standard output is exactly the header line "VDOConfig:"
followed by the six labeled field lines in the fixed order blockSize,
logicalBlocks, physicalBlocks, slabSize, recoveryJournalSize,
slabJournalBlocks, each indented two spaces and labeled "name: value",
and the process exits with code 0. -/
theorem c1_single_arg_valid_volume_report (w : World) (prog path : String)
    (c : VDOConfig) (h : w path = some c) :
    stdoutOf (mainTrace w prog [Arg.positional path]) =
      ["VDOConfig:\n",
       "  blockSize: 4096\n",
       "  logicalBlocks: " ++ unsignedDec c.logicalBlocks ++ "\n",
       "  physicalBlocks: " ++ unsignedDec c.physicalBlocks ++ "\n",
       "  slabSize: " ++ unsignedDec c.slabSize ++ "\n",
       "  recoveryJournalSize: " ++ unsignedDec c.recoveryJournalSize ++ "\n",
       "  slabJournalBlocks: " ++ unsignedDec c.slabJournalBlocks ++ "\n"] ∧
    exitCodeOf (mainTrace w prog [Arg.positional path]) = some 0 := by
  have hargs : processArgs [Arg.positional path] = ArgsResult.ok path := rfl
  rw [mainTrace_ok_some w prog path [Arg.positional path] c hargs h]
  constructor
  · simp [stdoutOf, renderLines, signedDec, VDO_BLOCK_SIZE]
    rfl
  · simp [exitCodeOf]

theorem c1_single_arg_valid_volume_report_witness :
    worldOne "vol" = some exampleConfig ∧
    (stdoutOf (mainTrace worldOne "vdodumpconfig" [Arg.positional "vol"]) =
      ["VDOConfig:\n",
       "  blockSize: 4096\n",
       "  logicalBlocks: " ++ unsignedDec exampleConfig.logicalBlocks ++ "\n",
       "  physicalBlocks: " ++ unsignedDec exampleConfig.physicalBlocks ++ "\n",
       "  slabSize: " ++ unsignedDec exampleConfig.slabSize ++ "\n",
       "  recoveryJournalSize: " ++
         unsignedDec exampleConfig.recoveryJournalSize ++ "\n",
       "  slabJournalBlocks: " ++
         unsignedDec exampleConfig.slabJournalBlocks ++ "\n"] ∧
     exitCodeOf (mainTrace worldOne "vdodumpconfig" [Arg.positional "vol"]) =
       some 0) :=
  ⟨rfl, c1_single_arg_valid_volume_report worldOne "vdodumpconfig" "vol"
    exampleConfig rfl⟩

/-- C2: whenever the volume load fails, the process exits 1, the
diagnostic written to stderr names the backing-store path, and nothing at
all (in particular no "VDOConfig:" header) is written to stdout. -/
theorem c2_load_failure_diagnostic (w : World) (prog : String)
    (args : List Arg) (path : String)
    (hargs : processArgs args = ArgsResult.ok path) (h : w path = none) :
    exitCodeOf (mainTrace w prog args) = some 1 ∧
    stdoutOf (mainTrace w prog args) = [] ∧
    stderrOf (mainTrace w prog args) =
      [errxMsg prog ("Could not load VDO from \x27" ++ path ++ "\x27")] ∧
    ∃ pre post,
      errxMsg prog ("Could not load VDO from \x27" ++ path ++ "\x27") =
        pre ++ path ++ post := by
  rw [mainTrace_ok_none w prog path args hargs h]
  refine ⟨rfl, rfl, rfl, prog ++ ": " ++ "Could not load VDO from \x27",
    "\x27" ++ "\n", ?_⟩
  simp only [errxMsg, String.append_assoc]

theorem c2_load_failure_diagnostic_witness :
    processArgs [Arg.positional "nosuch"] = ArgsResult.ok "nosuch" ∧
    worldNone "nosuch" = none ∧
    (exitCodeOf (mainTrace worldNone "vdodumpconfig" [Arg.positional "nosuch"]) =
       some 1 ∧
     stdoutOf (mainTrace worldNone "vdodumpconfig" [Arg.positional "nosuch"]) =
       [] ∧
     stderrOf (mainTrace worldNone "vdodumpconfig" [Arg.positional "nosuch"]) =
       [errxMsg "vdodumpconfig"
         ("Could not load VDO from \x27" ++ "nosuch" ++ "\x27")] ∧
     ∃ pre post,
       errxMsg "vdodumpconfig"
           ("Could not load VDO from \x27" ++ "nosuch" ++ "\x27") =
         pre ++ "nosuch" ++ post) :=
  ⟨rfl, rfl, c2_load_failure_diagnostic worldNone "vdodumpconfig"
    [Arg.positional "nosuch"] "nosuch" rfl rfl⟩

@[simp] theorem countClose_append (l₁ l₂ : List Event) :
    countClose (l₁ ++ l₂) = countClose l₁ + countClose l₂ := by
  simp [countClose, List.countP_append]

@[simp] theorem opensReadOnly_map_outWrite (ls : List String) (tr : List Event) :
    opensReadOnly (List.map Event.outWrite ls ++ tr) = opensReadOnly tr := by
  induction ls with
  | nil => rfl
  | cons s rest ih => simp [opensReadOnly, ih]

/-- When the first option processed is the help flag, `processArgs` takes
the help exit. -/
theorem processArgs_scan_help (args : List Arg)
    (h : scanOptions args = some true) :
    processArgs args = ArgsResult.helpExit := by
  unfold processArgs
  rw [h]

/-- When the first option processed is unrecognized, `processArgs` takes
the usage exit. -/
theorem processArgs_scan_bad (args : List Arg)
    (h : scanOptions args = some false) :
    processArgs args = ArgsResult.usageExit := by
  unfold processArgs
  rw [h]

/-- Trace of a help exit: the help text to stdout, then exit 0. -/
theorem mainTrace_helpExit (w : World) (prog : String) (args : List Arg)
    (h : processArgs args = ArgsResult.helpExit) :
    mainTrace w prog args = [Event.outWrite helpString, Event.exited 0] := by
  simp [mainTrace, vdoMain, h]

/-- Trace of a usage exit: the usage message to stderr, then exit 1. -/
theorem mainTrace_usageExit (w : World) (prog : String) (args : List Arg)
    (h : processArgs args = ArgsResult.usageExit) :
    mainTrace w prog args = [Event.errWrite (usageMsg prog), Event.exited 1] := by
  simp [mainTrace, vdoMain, h]

/-- An all-positional command line makes the option loop finish without
exiting. -/
theorem scanOptions_all_positional (args : List Arg)
    (h : ∀ a ∈ args, ∃ p, a = Arg.positional p) :
    scanOptions args = none := by
  induction args with
  | nil => rfl
  | cons a rest ih =>
    obtain ⟨p, hp⟩ := h a (List.mem_cons_self a rest)
    subst hp
    exact ih fun b hb => h b (List.mem_cons_of_mem _ hb)

/-- On an all-positional command line every token is positional. -/
theorem positionalsOf_length (args : List Arg)
    (h : ∀ a ∈ args, ∃ p, a = Arg.positional p) :
    (positionalsOf args).length = args.length := by
  induction args with
  | nil => rfl
  | cons a rest ih =>
    obtain ⟨p, hp⟩ := h a (List.mem_cons_self a rest)
    subst hp
    simp [positionalsOf, ih fun b hb => h b (List.mem_cons_of_mem _ hb)]

/-- C3: an invocation whose command line, after flag parsing, has zero or
more than one positional argument exits with code 1, writes the usage
message to standard error, and writes nothing to standard output. -/
theorem c3_wrong_positional_count_usage (w : World) (prog : String)
    (args : List Arg) (hpos : ∀ a ∈ args, ∃ p, a = Arg.positional p)
    (hn : args.length ≠ 1) :
    exitCodeOf (mainTrace w prog args) = some 1 ∧
    stderrOf (mainTrace w prog args) = [usageMsg prog] ∧
    stdoutOf (mainTrace w prog args) = [] := by
  have hscan := scanOptions_all_positional args hpos
  have hlen := positionalsOf_length args hpos
  have hp : processArgs args = ArgsResult.usageExit := by
    unfold processArgs
    rw [hscan]
    cases hps : positionalsOf args with
    | nil => rfl
    | cons p rest =>
      cases rest with
      | nil =>
        exfalso
        apply hn
        rw [← hlen, hps]
        rfl
      | cons q rest2 => rfl
  rw [mainTrace_usageExit w prog args hp]
  exact ⟨rfl, rfl, rfl⟩

theorem c3_wrong_positional_count_usage_witness :
    (∀ a ∈ [Arg.positional "a", Arg.positional "b"], ∃ p,
      a = Arg.positional p) ∧
    ([Arg.positional "a", Arg.positional "b"].length ≠ 1) ∧
    (exitCodeOf (mainTrace worldNone "vdodumpconfig"
        [Arg.positional "a", Arg.positional "b"]) = some 1 ∧
     stderrOf (mainTrace worldNone "vdodumpconfig"
        [Arg.positional "a", Arg.positional "b"]) =
       [usageMsg "vdodumpconfig"] ∧
     stdoutOf (mainTrace worldNone "vdodumpconfig"
        [Arg.positional "a", Arg.positional "b"]) = []) :=
  ⟨by simp, by simp,
   c3_wrong_positional_count_usage worldNone "vdodumpconfig"
     [Arg.positional "a", Arg.positional "b"]
     (by simp) (by simp)⟩

/-- C4: every value of the rendered report, the blockSize line included,
is the unsigned decimal representation of the corresponding field or
constant (`%d` on the positive constant 4096 coincides with the unsigned
rendering). -/
theorem c4_values_unsigned_decimal (c : VDOConfig) :
    renderLines c =
      ["VDOConfig:\n",
       "  blockSize: " ++ unsignedDec 4096 ++ "\n",
       "  logicalBlocks: " ++ unsignedDec c.logicalBlocks ++ "\n",
       "  physicalBlocks: " ++ unsignedDec c.physicalBlocks ++ "\n",
       "  slabSize: " ++ unsignedDec c.slabSize ++ "\n",
       "  recoveryJournalSize: " ++ unsignedDec c.recoveryJournalSize ++ "\n",
       "  slabJournalBlocks: " ++ unsignedDec c.slabJournalBlocks ++ "\n"] :=
  rfl

/-- C5 counterexample: the invocation `vdodumpconfig -x --help` contains
the help flag, yet the process exits 1 and prints nothing to standard
output (in particular not the help text), because `getopt_long` processes
the unrecognized `-x` first. -/
theorem c5_help_anywhere_counterexample :
    exitCodeOf (mainTrace worldNone "vdodumpconfig"
      [Arg.badFlag "-x", Arg.helpFlag]) = some 1 ∧
    stdoutOf (mainTrace worldNone "vdodumpconfig"
      [Arg.badFlag "-x", Arg.helpFlag]) = [] :=
  ⟨rfl, rfl⟩

/-- C5 (amended): for every invocation in which `--help`/`-h` appears
before any unrecognized flag in option-processing order, the program
prints the fixed help text to standard output and exits 0 without any
volume access. -/
theorem c5_help_first_prints_help (w : World) (prog : String)
    (args : List Arg) (h : scanOptions args = some true) :
    stdoutOf (mainTrace w prog args) = [helpString] ∧
    exitCodeOf (mainTrace w prog args) = some 0 ∧
    accessesVolume (mainTrace w prog args) = false := by
  rw [mainTrace_helpExit w prog args (processArgs_scan_help args h)]
  exact ⟨rfl, rfl, rfl⟩

theorem c5_help_first_prints_help_witness :
    scanOptions [Arg.helpFlag, Arg.positional "a"] = some true ∧
    (stdoutOf (mainTrace worldOne "vdodumpconfig"
        [Arg.helpFlag, Arg.positional "a"]) = [helpString] ∧
     exitCodeOf (mainTrace worldOne "vdodumpconfig"
        [Arg.helpFlag, Arg.positional "a"]) = some 0 ∧
     accessesVolume (mainTrace worldOne "vdodumpconfig"
        [Arg.helpFlag, Arg.positional "a"]) = false) :=
  ⟨rfl, c5_help_first_prints_help worldOne "vdodumpconfig"
    [Arg.helpFlag, Arg.positional "a"] rfl⟩

/-- C6: on every execution that reaches a successful open, the handle is
released exactly once, nothing is written to standard output before the
release, and the report printed after the release is rendered from the
configuration copied out of the handle. -/
theorem c6_close_once_before_render (w : World) (prog path : String)
    (args : List Arg) (c : VDOConfig)
    (hargs : processArgs args = ArgsResult.ok path) (h : w path = some c) :
    countClose (mainTrace w prog args) = 1 ∧
    stdoutOf (List.takeWhile (fun e => ! isClose e) (mainTrace w prog args)) =
      [] ∧
    stdoutOf (mainTrace w prog args) = renderLines c := by
  rw [mainTrace_ok_some w prog path args c hargs h]
  refine ⟨?_, ?_, ?_⟩
  · simp [countClose, List.countP_cons, isClose]
  · simp [List.takeWhile_cons, isClose, stdoutOf]
  · simp [stdoutOf, renderLines]

theorem c6_close_once_before_render_witness :
    processArgs [Arg.positional "vol"] = ArgsResult.ok "vol" ∧
    worldOne "vol" = some exampleConfig ∧
    (countClose (mainTrace worldOne "vdodumpconfig" [Arg.positional "vol"]) =
       1 ∧
     stdoutOf (List.takeWhile (fun e => ! isClose e)
        (mainTrace worldOne "vdodumpconfig" [Arg.positional "vol"])) = [] ∧
     stdoutOf (mainTrace worldOne "vdodumpconfig" [Arg.positional "vol"]) =
       renderLines exampleConfig) :=
  ⟨rfl, rfl, c6_close_once_before_render worldOne "vdodumpconfig" "vol"
    [Arg.positional "vol"] exampleConfig rfl rfl⟩

/-- C7 counterexample: the invocation `vdodumpconfig --help -x` contains
an unrecognized flag, yet the process exits 0 and writes nothing to
standard error, because the help flag is processed first. -/
theorem c7_bad_flag_anywhere_counterexample :
    exitCodeOf (mainTrace worldNone "vdodumpconfig"
      [Arg.helpFlag, Arg.badFlag "-x"]) = some 0 ∧
    stderrOf (mainTrace worldNone "vdodumpconfig"
      [Arg.helpFlag, Arg.badFlag "-x"]) = [] :=
  ⟨rfl, rfl⟩

/-- C7 (amended): for every invocation in which an unrecognized flag
appears before any `--help`/`-h` in option-processing order, the process
exits 1 and writes the one-line usage message to standard error. -/
theorem c7_bad_flag_first_usage (w : World) (prog : String)
    (args : List Arg) (h : scanOptions args = some false) :
    exitCodeOf (mainTrace w prog args) = some 1 ∧
    stderrOf (mainTrace w prog args) = [usageMsg prog] ∧
    stdoutOf (mainTrace w prog args) = [] := by
  rw [mainTrace_usageExit w prog args (processArgs_scan_bad args h)]
  exact ⟨rfl, rfl, rfl⟩

theorem c7_bad_flag_first_usage_witness :
    scanOptions [Arg.badFlag "-x", Arg.positional "vol"] = some false ∧
    (exitCodeOf (mainTrace worldOne "vdodumpconfig"
        [Arg.badFlag "-x", Arg.positional "vol"]) = some 1 ∧
     stderrOf (mainTrace worldOne "vdodumpconfig"
        [Arg.badFlag "-x", Arg.positional "vol"]) =
       [usageMsg "vdodumpconfig"] ∧
     stdoutOf (mainTrace worldOne "vdodumpconfig"
        [Arg.badFlag "-x", Arg.positional "vol"]) = []) :=
  ⟨rfl, c7_bad_flag_first_usage worldOne "vdodumpconfig"
    [Arg.badFlag "-x", Arg.positional "vol"] rfl⟩

/-- C8: on every execution path the persisted volume state is unchanged
by a run, and every volume-open call is made with the read-only flag
set. -/
theorem c8_read_only_no_writes (w : World) (prog : String)
    (args : List Arg) :
    mainWorld w prog args = w ∧
    opensReadOnly (mainTrace w prog args) = true := by
  refine ⟨main_world_const w prog args, ?_⟩
  unfold mainTrace vdoMain
  cases hp : processArgs args with
  | helpExit => rfl
  | usageExit => rfl
  | ok path =>
    cases hw : w path with
    | none => simp [readVDOConfig, makeVDOFromFile, hw, opensReadOnly]
    | some c => simp [readVDOConfig, makeVDOFromFile, hw, opensReadOnly]

/-- C9: the observable output is a deterministic function of the argument
list and the volume state, and a run leaves the volume state unchanged;
hence a second invocation against the store left by a first invocation
produces byte-identical standard output and the same exit code. -/
theorem c9_repeat_run_identical (w : World) (prog : String)
    (args : List Arg) :
    stdoutOf (mainTrace (mainWorld w prog args) prog args) =
      stdoutOf (mainTrace w prog args) ∧
    exitCodeOf (mainTrace (mainWorld w prog args) prog args) =
      exitCodeOf (mainTrace w prog args) := by
  rw [main_world_const w prog args]
  exact ⟨rfl, rfl⟩

/-- C10: the help flag short-circuits usage validation only when it comes
first in option-processing order: when an unrecognized flag is processed
before any help flag the process exits 1 without printing the help text,
and when the help flag is processed before any unrecognized flag the help
text is printed and the process exits 0, regardless of the positional
arguments. -/
theorem c10_flag_order_precedence (w : World) (prog : String)
    (args : List Arg) :
    (scanOptions args = some false →
      exitCodeOf (mainTrace w prog args) = some 1 ∧
      stdoutOf (mainTrace w prog args) = []) ∧
    (scanOptions args = some true →
      stdoutOf (mainTrace w prog args) = [helpString] ∧
      exitCodeOf (mainTrace w prog args) = some 0) := by
  constructor
  · intro h
    rw [mainTrace_usageExit w prog args (processArgs_scan_bad args h)]
    exact ⟨rfl, rfl⟩
  · intro h
    rw [mainTrace_helpExit w prog args (processArgs_scan_help args h)]
    exact ⟨rfl, rfl⟩

theorem c10_flag_order_precedence_witness :
    (exitCodeOf (mainTrace worldOne "vdodumpconfig"
        [Arg.badFlag "-z", Arg.helpFlag]) = some 1 ∧
     stdoutOf (mainTrace worldOne "vdodumpconfig"
        [Arg.badFlag "-z", Arg.helpFlag]) = []) ∧
    (stdoutOf (mainTrace worldOne "vdodumpconfig"
        [Arg.helpFlag, Arg.badFlag "-z", Arg.positional "a",
         Arg.positional "b"]) = [helpString] ∧
     exitCodeOf (mainTrace worldOne "vdodumpconfig"
        [Arg.helpFlag, Arg.badFlag "-z", Arg.positional "a",
         Arg.positional "b"]) = some 0) :=
  ⟨(c10_flag_order_precedence worldOne "vdodumpconfig"
      [Arg.badFlag "-z", Arg.helpFlag]).1 rfl,
   (c10_flag_order_precedence worldOne "vdodumpconfig"
      [Arg.helpFlag, Arg.badFlag "-z", Arg.positional "a",
       Arg.positional "b"]).2 rfl⟩
